import Mathlib

/-!
Verification of the parcel-normalization and spatial-index core of the
NYS Greene County property-search application.

The development shallowly embeds the relevant Python code:

* `greene_county_fetcher.process_features` (ArcGIS REST JSON ingestion),
* `app.geojson_to_df` (GeoJSON FeatureCollection ingestion),
* `nys_data_fetcher.NYSParcelFetcher._process_features` (NYS GIS GeoJSON ingestion),
* the numeric-coercion lines of `app.load_parcel_data` (flat cache ingestion),
* `app.get_spatial_index` (fingerprinted spatial-index cache) and the
  Find-Nearest handler in `app.main`.

Python scalar values that can flow through the attribute bags are modelled by
`PyVal` (JSON null, strings, and numbers; numbers are modelled exactly as
rationals, so float rounding noise, inf and NaN are outside the model).
Fallible Python code (calls to `float`/`int` on arbitrary values, list
indexing that can raise IndexError, `DataFrame.dropna` on a frame missing
the subset columns, which raises KeyError) is modelled with `Except`.
-/

namespace GreeneParcels

/-- A Python/JSON scalar value as it appears in feature attribute bags:
`None`, a string, or a number (ints and floats both modelled as exact
rationals). -/
inductive PyVal where
  | pynone
  | str (s : String)
  | num (q : ℚ)
deriving DecidableEq, Repr

/-- Python truthiness of a `PyVal`: `None` is falsy, a string is truthy iff
nonempty, a number is truthy iff nonzero. -/
def PyVal.truthy : PyVal → Bool
  | .pynone => false
  | .str s => !(s == "")
  | .num q => !(q == 0)

/-- Python `a or b`: `a` if truthy, else `b`. -/
def pyOr (a b : PyVal) : PyVal := if a.truthy then a else b

/-- An attribute bag (`feature["attributes"]` / `feature["properties"]`):
an association list from field name to value (keys assumed distinct, as in a
Python dict). -/
abbrev Attrs := List (String × PyVal)

/-- Python `d.get(k)`: the stored value, or `None` when the key is absent. -/
def getAttr (a : Attrs) (k : String) : PyVal :=
  match a.find? (fun e => e.1 == k) with
  | some e => e.2
  | none => PyVal.pynone

/-- Python `d.get(k, dflt)`. -/
def getAttrD (a : Attrs) (k : String) (dflt : PyVal) : PyVal :=
  match a.find? (fun e => e.1 == k) with
  | some e => e.2
  | none => dflt

/-- Python `str(v)` restricted to the values the code feeds it: strings pass
through, `None` prints as "None", and integral numbers print their numerals.
(The non-integral float repr is approximated by the rational repr; no spec
claim depends on it.) -/
def pyValStr : PyVal → String
  | .pynone => "None"
  | .str s => s
  | .num q => if q.den == 1 then toString q.num else toString q

/-- Numeric value of a list of decimal digit characters, most significant
first. -/
def digitsToNat (l : List Char) : ℕ :=
  l.foldl (fun n c => 10 * n + (c.toNat - 48)) 0

/-- All characters are decimal digits and there is at least one. -/
def isDigits (l : List Char) : Bool :=
  !l.isEmpty && l.all (fun c => c.isDigit)

/-- Parse an unsigned decimal mantissa: digits, optionally followed by a dot
and further digits, with at least one digit overall ("12", "12.", "12.5",
".5"). -/
def parseUnsignedDec (l : List Char) : Option ℚ :=
  match l.span (fun c => c.isDigit) with
  | (ip, []) =>
      if ip.isEmpty then none else some ((digitsToNat ip : ℚ))
  | (ip, '.' :: fp) =>
      if fp.all (fun c => c.isDigit) && (!ip.isEmpty || !fp.isEmpty) then
        some ((digitsToNat ip : ℚ) + (digitsToNat fp : ℚ) / ((10 : ℚ) ^ fp.length))
      else none
  | _ => none

/-- Parse an optionally signed decimal mantissa. -/
def parseMantissa (l : List Char) : Option ℚ :=
  match l with
  | '+' :: rest => parseUnsignedDec rest
  | '-' :: rest => (parseUnsignedDec rest).map (fun q => -q)
  | _ => parseUnsignedDec l

/-- Parse an optionally signed integer (exponent part). -/
def parseSignedInt (l : List Char) : Option ℤ :=
  match l with
  | '+' :: rest => if isDigits rest then some ((digitsToNat rest : ℤ)) else none
  | '-' :: rest => if isDigits rest then some (-(digitsToNat rest : ℤ)) else none
  | _ => if isDigits l then some ((digitsToNat l : ℤ)) else none

/-- Strip leading and trailing whitespace from a character list (the
whitespace stripping `float`/`int` perform on string arguments). -/
def trimChars (l : List Char) : List Char :=
  ((l.dropWhile (fun c => c.isWhitespace)).reverse.dropWhile
    (fun c => c.isWhitespace)).reverse

/-- Model of Python `float(s)` on strings: strip whitespace, then an
optionally signed decimal mantissa with an optional e/E exponent.
(The special names inf/nan have no rational counterpart and are outside the
model.) Returns `none` where `float` raises ValueError. -/
def parsePyFloat (s : String) : Option ℚ :=
  match (trimChars s.toList).span (fun c => !(c == 'e' || c == 'E')) with
  | (m, []) => parseMantissa m
  | (m, _ :: ex) => do
      let mq ← parseMantissa m
      let e ← parseSignedInt ex
      pure (mq * (10 : ℚ) ^ e)

/-- Model of Python `int(s)` on strings: strip whitespace, optionally signed
digits only. -/
def parsePyInt (s : String) : Option ℤ :=
  parseSignedInt (trimChars s.toList)

/-- Rational truncation toward zero, as Python `int()` applied to a float. -/
def ratTruncToZero (q : ℚ) : ℤ :=
  if q < 0 then -(Int.floor (-q)) else Int.floor q

/-- Python `float(v)`: numbers pass through, strings are parsed (ValueError
on failure), `None` is a TypeError. -/
def pyFloat : PyVal → Except String ℚ
  | .pynone => .error "TypeError: float() argument must not be None"
  | .num q => .ok q
  | .str s =>
      match parsePyFloat s with
      | some q => .ok q
      | none => .error "ValueError: could not convert string to float"

/-- Python `int(v)`: numbers truncate toward zero, strings must be integer
numerals (ValueError otherwise), `None` is a TypeError. -/
def pyInt : PyVal → Except String ℤ
  | .pynone => .error "TypeError: int() argument must not be None"
  | .num q => .ok (ratTruncToZero q)
  | .str s =>
      match parsePyInt s with
      | some z => .ok z
      | none => .error "ValueError: invalid literal for int()"

/-- Round to the nearest integer, ties to even: the rounding used by both
`numpy.round` and Python `round`. -/
def roundHalfEven (q : ℚ) : ℤ :=
  if q - (Int.floor q : ℚ) < 1/2 then Int.floor q
  else if (1 : ℚ)/2 < q - (Int.floor q : ℚ) then Int.floor q + 1
  else if Int.floor q % 2 = 0 then Int.floor q else Int.floor q + 1

/-- Model of `np.round(x, 6)`: round to six decimal digits, ties to even. -/
def round6 (q : ℚ) : ℚ := ((roundHalfEven (q * 1000000) : ℚ)) / 1000000

/-- Model of Python `round(x, 2)`. -/
def pyRound2 (q : ℚ) : ℚ := ((roundHalfEven (q * 100) : ℚ)) / 100

/-- The `PROPERTY_CLASS_DESC` code-to-description table.  The copies in
`greene_county_fetcher.py` and `constants.py` are identical, entry for
entry. -/
def PROPERTY_CLASS_DESC : List (String × String) := [
  ("100", "Agricultural"),
  ("105", "Agricultural Vacant"),
  ("110", "Livestock"),
  ("112", "Dairy Farm"),
  ("113", "Cattle Farm"),
  ("117", "Horse Farm"),
  ("120", "Field Crops"),
  ("200", "Residential"),
  ("210", "One Family Residential"),
  ("220", "Two Family Residential"),
  ("230", "Three Family Residential"),
  ("240", "Rural Residence"),
  ("250", "Estate"),
  ("260", "Seasonal Residence"),
  ("270", "Mobile Home"),
  ("280", "Multiple Residences"),
  ("281", "Multiple Res - 2 to 3 Units"),
  ("283", "Multiple Res - 4 to 6 Units"),
  ("300", "Vacant Land"),
  ("311", "Vacant Land - Residential"),
  ("312", "Vacant Land - Under 10 Acres"),
  ("314", "Vacant Land - Rural"),
  ("322", "Vacant Land - Over 10 Acres"),
  ("323", "Vacant Land - Forest"),
  ("330", "Vacant Land - Commercial"),
  ("340", "Vacant Land - Industrial"),
  ("400", "Commercial"),
  ("411", "Apartments"),
  ("421", "Restaurant"),
  ("422", "Diner/Luncheonette"),
  ("425", "Bar"),
  ("430", "Motel"),
  ("432", "Hotel"),
  ("449", "Other Storage"),
  ("464", "Office Building"),
  ("480", "Multiple Use"),
  ("485", "One Story Small Structure"),
  ("500", "Recreation & Entertainment"),
  ("534", "Social Organization"),
  ("570", "Marina"),
  ("582", "Camping Facility"),
  ("590", "Park"),
  ("600", "Community Service"),
  ("612", "School"),
  ("620", "Religious"),
  ("632", "Health Facility"),
  ("651", "Highway Garage"),
  ("662", "Police/Fire Station"),
  ("700", "Industrial"),
  ("710", "Manufacturing"),
  ("800", "Public Service"),
  ("822", "Water Supply"),
  ("831", "Telephone"),
  ("900", "Wild/Forest/Conservation"),
  ("910", "Private Forest"),
  ("911", "Forest Land - Private"),
  ("920", "State Forest"),
  ("930", "State Owned - Other"),
  ("931", "State Owned - Forest"),
  ("940", "State Reforestation"),
  ("941", "State Land - Reforestation"),
  ("942", "State Land - Wilderness"),
  ("961", "State Owned - Other Agency"),
  ("962", "State Owned - DEC"),
  ("963", "State Park"),
  ("970", "Federal"),
  ("980", "County Land"),
  ("990", "Town Land")]

/-- Dictionary lookup in the class table (`PROPERTY_CLASS_DESC.get(k)`). -/
def classLookup (k : String) : Option String :=
  (PROPERTY_CLASS_DESC.find? (fun e => e.1 == k)).map (fun e => e.2)

/-- The property-class description resolution of
`greene_county_fetcher.process_features`: for a truthy (nonempty) class
string, exact lookup, else the first two characters padded with "0"
(when the string has at least two characters, else the string itself), else
the first character padded with "00", else "Unknown"; an empty class string
resolves directly to "Unknown". -/
def resolveClassDesc (pc : String) : String :=
  if pc == "" then "Unknown"
  else
    (classLookup pc).getD
      ((classLookup (if 2 ≤ pc.length then pc.take 2 ++ "0" else pc)).getD
        ((classLookup (if 1 ≤ pc.length then pc.take 1 ++ "00" else "")).getD
          "Unknown"))

/-- The two-level resolution of `NYSParcelFetcher._process_features`: exact
lookup, else the first two characters padded with "0", else "Unknown". -/
def resolveClassDescNYS (pc : String) : String :=
  (classLookup pc).getD ((classLookup (pc.take 2 ++ "0")).getD "Unknown")

/-- Sequence a fallible per-record conversion over a batch, as the Python
`for` loops do: records are produced in order and the first exception aborts
the whole call. -/
def mapEx {α β : Type} (g : α → Except String β) : List α → Except String (List β)
  | [] => .ok []
  | x :: xs => do
      let y ← g x
      let ys ← mapEx g xs
      pure (y :: ys)

/-- Mean of the first components of a coordinate list
(`sum(xs) / len(xs)`). -/
def meanFst (l : List (ℚ × ℚ)) : ℚ := (l.map (fun c => c.1)).sum / (l.length : ℚ)

/-- Mean of the second components of a coordinate list. -/
def meanSnd (l : List (ℚ × ℚ)) : ℚ := (l.map (fun c => c.2)).sum / (l.length : ℚ)

/-! ## ArcGIS REST ingestion: `greene_county_fetcher.process_features` -/

/-- One ArcGIS feature: the attribute bag, and the polygon rings when the
feature has a geometry with a "rings" key (each ring point is an `[x, y]` =
`[lon, lat]` pair). -/
structure AFeature where
  attributes : Attrs
  rings : Option (List (List (ℚ × ℚ)))
deriving DecidableEq, Repr

/-- The canonical record built by `process_features`, field for field. -/
structure GRecord where
  parcel_id : PyVal
  sbl : PyVal
  owner : PyVal
  mailing_address : PyVal
  mailing_city : PyVal
  mailing_state : PyVal
  mailing_zip : String
  property_address : PyVal
  property_class : String
  acreage : ℚ
  assessed_value : ℤ
  land_value : ℤ
  municipality : PyVal
  school_district : PyVal
  swis_code : PyVal
  property_class_desc : String
  coordinates : List (ℚ × ℚ)
  longitude : Option ℚ
  latitude : Option ℚ
  county : String
  improvement_value : ℤ
  annual_taxes : ℚ
  tax_year : ℤ
  deed_book : PyVal
  deed_page : PyVal
  last_sale_date : PyVal
  last_sale_price : PyVal
deriving DecidableEq, Repr

/-- The owner fallback chain of `process_features`:
`attrs.get("OWNER") or attrs.get("Owner") or attrs.get("OWNER1") or
attrs.get("OWNER_NAME") or attrs.get("NAME") or attrs.get("OwnerName") or
"Unknown"`. -/
def greeneOwner (a : Attrs) : PyVal :=
  pyOr (getAttr a "OWNER") (pyOr (getAttr a "Owner") (pyOr (getAttr a "OWNER1")
    (pyOr (getAttr a "OWNER_NAME") (pyOr (getAttr a "NAME")
      (pyOr (getAttr a "OwnerName") (.str "Unknown"))))))

/-- Geometry handling of `process_features`: when the feature has rings and
the first ring is nonempty, `coordinates` is the first ring capped at 100
points with each `[lon, lat]` pair swapped to `[lat, lon]`, and the centroid
is the arithmetic mean over the whole (uncapped) first ring; otherwise
`coordinates` is empty and latitude/longitude are null.  Returns
`(coordinates, latitude, longitude)`. -/
def greeneGeo (rings : Option (List (List (ℚ × ℚ)))) :
    List (ℚ × ℚ) × Option ℚ × Option ℚ :=
  match rings with
  | some (r0 :: _) =>
      if r0.isEmpty then ([], none, none)
      else ((r0.take 100).map (fun c => (c.2, c.1)), some (meanSnd r0), some (meanFst r0))
  | some [] => ([], none, none)
  | none => ([], none, none)

/-- Per-feature body of the `process_features` loop.  Field order follows the
source: the fallible coercions `float(...)` for acreage and `int(...)` for
assessed/land value can raise, aborting the whole batch. -/
def processGFeature (f : AFeature) : Except String GRecord := do
  let a := f.attributes
  let acreage ← pyFloat (pyOr (getAttr a "ACRES") (pyOr (getAttr a "Acres")
    (pyOr (getAttr a "CALC_ACRES") (pyOr (getAttr a "ACREAGE")
      (pyOr (getAttr a "GIS_ACRES") (.num 0))))))
  let assessed_value ← pyInt (pyOr (getAttr a "TOTAL_AV") (pyOr (getAttr a "TotalAV")
    (pyOr (getAttr a "ASSESSED_VALUE") (pyOr (getAttr a "FULL_VAL")
      (pyOr (getAttr a "TOTAL_VALUE") (.num 0))))))
  let land_value ← pyInt (pyOr (getAttr a "LAND_AV") (pyOr (getAttr a "LandAV")
    (pyOr (getAttr a "LAND_VALUE") (.num 0))))
  let property_class := pyValStr (pyOr (getAttr a "PROP_CLASS") (pyOr (getAttr a "PropClass")
    (pyOr (getAttr a "PROPERTY_CLASS") (pyOr (getAttr a "LUC")
      (pyOr (getAttr a "CLASS") (.str ""))))))
  let geo := greeneGeo f.rings
  pure {
    parcel_id := pyOr (getAttr a "PRINT_KEY") (pyOr (getAttr a "PrintKey")
      (pyOr (getAttr a "PARCEL_ID") (pyOr (getAttr a "ParcelID")
        (pyOr (getAttr a "SBL") (.str (pyValStr (getAttrD a "OBJECTID" (.str "")))))))),
    sbl := pyOr (getAttr a "SBL") (pyOr (getAttr a "SWIS_SBL")
      (pyOr (getAttr a "PARCEL_ID") (.str ""))),
    owner := greeneOwner a,
    mailing_address := pyOr (getAttr a "MAIL_ADDR") (pyOr (getAttr a "MailAddr")
      (pyOr (getAttr a "MAILING_ADDRESS") (pyOr (getAttr a "Mail_Addr") (.str "")))),
    mailing_city := pyOr (getAttr a "MAIL_CITY") (pyOr (getAttr a "MailCity")
      (pyOr (getAttr a "MAILING_CITY") (pyOr (getAttr a "PO") (.str "")))),
    mailing_state := pyOr (getAttr a "MAIL_STATE") (pyOr (getAttr a "MailState")
      (pyOr (getAttr a "MAILING_STATE") (.str "NY"))),
    mailing_zip := pyValStr (pyOr (getAttr a "MAIL_ZIP") (pyOr (getAttr a "MailZip")
      (pyOr (getAttr a "MAILING_ZIP") (pyOr (getAttr a "ZIP") (.str ""))))),
    property_address := pyOr (getAttr a "PROP_ADDR") (pyOr (getAttr a "PropAddr")
      (pyOr (getAttr a "PROPERTY_ADDRESS") (pyOr (getAttr a "LOC_ADDR")
        (pyOr (getAttr a "LOCATION") (.str ""))))),
    property_class := property_class,
    acreage := acreage,
    assessed_value := assessed_value,
    land_value := land_value,
    municipality := pyOr (getAttr a "MUNI_NAME") (pyOr (getAttr a "MuniName")
      (pyOr (getAttr a "MUNICIPALITY") (pyOr (getAttr a "TOWN")
        (pyOr (getAttr a "CITY") (.str ""))))),
    school_district := pyOr (getAttr a "SCHOOL_NAME") (pyOr (getAttr a "SchoolName")
      (pyOr (getAttr a "SCHOOL") (pyOr (getAttr a "SCHOOL_DIST") (.str "")))),
    swis_code := pyOr (getAttr a "SWIS") (pyOr (getAttr a "SwisCode")
      (pyOr (getAttr a "SWIS_CODE") (.str ""))),
    property_class_desc := resolveClassDesc property_class,
    coordinates := geo.1,
    longitude := geo.2.2,
    latitude := geo.2.1,
    county := "Greene",
    improvement_value := max 0 (assessed_value - land_value),
    annual_taxes := pyRound2 ((assessed_value : ℚ) * (25/1000)),
    tax_year := 2024,
    deed_book := getAttrD a "DEED_BOOK" (getAttrD a "DeedBook" (.str "")),
    deed_page := getAttrD a "DEED_PAGE" (getAttrD a "DeedPage" (.str "")),
    last_sale_date := getAttrD a "SALE_DATE" (getAttrD a "SaleDate" (.str "")),
    last_sale_price := getAttrD a "SALE_PRICE" (getAttrD a "SalePrice" .pynone) }

/-- The whole of `process_features`: build every record (first exception
aborts the batch), then `pd.DataFrame(records).dropna(subset=["latitude",
"longitude"])`.  On an empty batch the DataFrame has no columns at all, and
`dropna` with a `subset` naming absent columns raises KeyError; on a
nonempty batch it keeps exactly the rows whose latitude and longitude are
both non-null. -/
def process_features (features : List AFeature) : Except String (List GRecord) := do
  let records ← mapEx processGFeature features
  if records.isEmpty then
    Except.error "KeyError: latitude, longitude not in frame"
  else
    pure (records.filter (fun r => r.latitude.isSome && r.longitude.isSome))

/-! ## GeoJSON ingestion: `app.geojson_to_df` -/

/-- A GeoJSON geometry as the two ingestion paths dispatch on it: a Polygon
(list of rings of `[lon, lat]` points), a MultiPolygon (list of polygons),
or any other type. -/
inductive GJGeom where
  | polygon (coordinates : List (List (ℚ × ℚ)))
  | multiPolygon (coordinates : List (List (List (ℚ × ℚ))))
  | other
deriving DecidableEq, Repr

/-- A GeoJSON feature: properties bag and geometry. -/
structure GJFeature where
  properties : Attrs
  geometry : GJGeom
deriving DecidableEq, Repr

/-- Input to `geojson_to_df`: whether the payload is a dict with top-level
type "FeatureCollection", and its features. -/
structure GJData where
  isFeatureCollection : Bool
  features : List GJFeature
deriving DecidableEq, Repr

/-- Ring extraction and reordering of `geojson_to_df`: for a Polygon,
`(geom.get("coordinates") or [[]])[0]` (an empty or absent ring list
defaults to an empty ring); for a MultiPolygon,
`(geom.get("coordinates") or [[[]]])[0][0]`, where a present but empty
first polygon raises IndexError.  A nonempty ring is capped at 100 points
and each `[lon, lat]` pair is swapped to `[lat, lon]`. -/
def gjCoords (g : GJGeom) : Except String (List (ℚ × ℚ)) :=
  match g with
  | .polygon cs =>
      let ring := cs.headD []
      .ok (if ring.isEmpty then [] else (ring.take 100).map (fun c => (c.2, c.1)))
  | .multiPolygon cs =>
      match cs with
      | [] => .ok []
      | poly :: _ =>
          match poly with
          | [] => .error "IndexError: list index out of range"
          | ring :: _ =>
              .ok (if ring.isEmpty then [] else (ring.take 100).map (fun c => (c.2, c.1)))
  | .other => .ok []

/-- Centroid computation of `geojson_to_df`: arithmetic means over the
already swapped and capped `coords` list (so over at most the first 100 ring
points), null when it is empty.  Returns `(latitude, longitude)`. -/
def gjCentroid (coords : List (ℚ × ℚ)) : Option ℚ × Option ℚ :=
  if coords.isEmpty then (none, none)
  else (some (meanFst coords), some (meanSnd coords))

/-- The canonical record built by `geojson_to_df`, field for field. -/
structure GJRecord where
  parcel_id : PyVal
  sbl : PyVal
  owner : PyVal
  mailing_address : PyVal
  mailing_city : PyVal
  mailing_state : PyVal
  mailing_zip : String
  property_class : String
  property_class_desc : PyVal
  acreage : ℚ
  assessed_value : ℤ
  land_value : ℤ
  improvement_value : ℤ
  tax_year : ℤ
  annual_taxes : ℚ
  school_district : PyVal
  municipality : PyVal
  county : PyVal
  latitude : Option ℚ
  longitude : Option ℚ
  coordinates : List (ℚ × ℚ)
  deed_book : String
  deed_page : String
  last_sale_date : PyVal
  last_sale_price : PyVal
deriving DecidableEq, Repr

/-- Per-feature body of the `geojson_to_df` loop. -/
def processGJFeature (f : GJFeature) : Except String GJRecord := do
  let p := f.properties
  let coords ← gjCoords f.geometry
  let cent := gjCentroid coords
  let acreage ← pyFloat (pyOr (getAttr p "acreage") (pyOr (getAttr p "CALC_ACRES")
    (pyOr (getAttr p "ACRES") (.num 0))))
  let assessed_value ← pyInt (pyOr (getAttr p "assessed_value")
    (pyOr (getAttr p "TOTAL_AV") (.num 0)))
  let land_value ← pyInt (pyOr (getAttr p "land_value")
    (pyOr (getAttr p "LAND_AV") (.num 0)))
  let improvement_value ← pyInt (pyOr (getAttr p "improvement_value") (.num 0))
  let tax_year ← pyInt (pyOr (getAttr p "tax_year") (.num 2024))
  let annual_taxes ← pyFloat (pyOr (getAttr p "annual_taxes") (.num 0))
  pure {
    parcel_id := pyOr (getAttr p "parcel_id") (pyOr (getAttr p "PRINT_KEY")
      (pyOr (getAttr p "SBL") (pyOr (getAttr p "PARCEL_ID") (.str "")))),
    sbl := pyOr (getAttr p "sbl") (pyOr (getAttr p "SBL") (.str "")),
    owner := pyOr (getAttr p "owner") (pyOr (getAttr p "OWNER")
      (pyOr (getAttr p "OWNER_NAME") (.str "Unknown"))),
    mailing_address := pyOr (getAttr p "mailing_address")
      (pyOr (getAttr p "MAIL_ADDR") (.str "")),
    mailing_city := pyOr (getAttr p "mailing_city")
      (pyOr (getAttr p "MAIL_CITY") (.str "")),
    mailing_state := pyOr (getAttr p "mailing_state")
      (pyOr (getAttr p "MAIL_STATE") (.str "NY")),
    mailing_zip := pyValStr (pyOr (getAttr p "mailing_zip")
      (pyOr (getAttr p "MAIL_ZIP") (.str ""))),
    property_class := pyValStr (pyOr (getAttr p "property_class")
      (pyOr (getAttr p "PROP_CLASS") (.str ""))),
    property_class_desc := pyOr (getAttr p "property_class_desc")
      (pyOr (getAttr p "CLASS_DESC") (.str "Unknown")),
    acreage := acreage,
    assessed_value := assessed_value,
    land_value := land_value,
    improvement_value := improvement_value,
    tax_year := tax_year,
    annual_taxes := annual_taxes,
    school_district := pyOr (getAttr p "school_district")
      (pyOr (getAttr p "SCHOOL_NAME") (.str "")),
    municipality := pyOr (getAttr p "municipality")
      (pyOr (getAttr p "MUNI_NAME") (.str "")),
    county := pyOr (getAttr p "county") (.str "Greene"),
    latitude := cent.1,
    longitude := cent.2,
    coordinates := coords,
    deed_book := pyValStr (pyOr (getAttr p "deed_book")
      (pyOr (getAttr p "DEED_BOOK") (.str ""))),
    deed_page := pyValStr (pyOr (getAttr p "deed_page")
      (pyOr (getAttr p "DEED_PAGE") (.str ""))),
    last_sale_date := pyOr (getAttr p "last_sale_date")
      (pyOr (getAttr p "SALE_DATE") (.str "")),
    last_sale_price := pyOr (getAttr p "last_sale_price")
      (pyOr (getAttr p "SALE_PRICE") .pynone) }

/-- The whole of `geojson_to_df`.  A payload that is not a FeatureCollection
dict returns `None` (modelled `Option.none`).  Otherwise every feature is
converted (first exception aborts), an empty frame is returned as is, and a
nonempty frame is filtered by `dropna(subset=["latitude", "longitude"])`.
The subsequent `fillna` calls on property_class_desc, owner and
annual_taxes replace only NaN entries; in this model those columns are never
NaN (the fallback chains end in non-null defaults, and `float()` here never
produces NaN), so they are identities.  In particular the
`annual_taxes.fillna(assessed_value * 0.025)` line never fires for an
absent or falsy source value, because `float(... or 0)` already produced
the number `0.0`, not NaN. -/
def geojson_to_df (d : GJData) : Except String (Option (List GJRecord)) := do
  if !d.isFeatureCollection then
    pure none
  else do
    let records ← mapEx processGJFeature d.features
    if records.isEmpty then
      pure (some records)
    else
      pure (some (records.filter (fun r => r.latitude.isSome && r.longitude.isSome)))

/-! ## NYS GIS ingestion: `NYSParcelFetcher._process_features` -/

/-- Does the bag have the key (`k in props`)? -/
def hasKey (r : Attrs) (k : String) : Bool :=
  (r.find? (fun e => e.1 == k)).isSome

/-- Python `record[k] = v` on a dict modelled as an association list:
overwrite in place, else append. -/
def setKey (r : Attrs) (k : String) (v : PyVal) : Attrs :=
  if (r.find? (fun e => e.1 == k)).isSome then
    r.map (fun e => if e.1 == k then (k, v) else e)
  else r ++ [(k, v)]

/-- The `FIELD_MAPPING` table of `nys_data_fetcher.py`, in dict insertion
order (later entries that map to an already-written target field overwrite
it). -/
def FIELD_MAPPING : List (String × String) := [
  ("PRINT_KEY", "parcel_id"),
  ("PARCEL_ADDR", "property_address"),
  ("OWNER1", "owner"),
  ("MAIL_ADDR", "mailing_address"),
  ("MAIL_CITY", "mailing_city"),
  ("MAIL_STATE", "mailing_state"),
  ("MAIL_ZIP", "mailing_zip"),
  ("PROP_CLASS", "property_class"),
  ("LAND_AV", "land_value"),
  ("TOTAL_AV", "assessed_value"),
  ("FULL_MV", "full_market_value"),
  ("CALC_ACRES", "acreage"),
  ("MUNI_NAME", "municipality"),
  ("COUNTY_NAME", "county"),
  ("SCHOOL_NAME", "school_district"),
  ("SBL", "sbl"),
  ("SWIS", "swis_code"),
  ("NAME", "owner"),
  ("OWNER_NAME", "owner"),
  ("ACRES", "acreage"),
  ("ASSESSED_VALUE", "assessed_value"),
  ("LAND_VALUE", "land_value")]

/-- The field-mapping loop of `_process_features`: for each
`(source, target)` pair in order, copy `props[source]` to `record[target]`
when the source key is present. -/
def nysMapFields (props : Attrs) : Attrs :=
  FIELD_MAPPING.foldl
    (fun r m => if hasKey props m.1 then setKey r m.2 (getAttr props m.1) else r) []

/-- Geometry handling of `_process_features`: a Polygon takes
`geometry.get("coordinates", [[]])[0]` (IndexError when the ring list is
present but empty), a MultiPolygon takes `[0][0]`; the stored
`coordinates` are the ring capped at 50 points, `[lon, lat]` swapped to
`[lat, lon]`; the centroid is the mean over the whole (uncapped) ring and
stays unset (null) for an empty ring; other geometry types give an empty
list and null centroid.  Returns `(coordinates, latitude, longitude)`. -/
def nysGeo (g : GJGeom) : Except String (List (ℚ × ℚ) × Option ℚ × Option ℚ) :=
  match g with
  | .polygon cs =>
      match cs with
      | [] => .error "IndexError: list index out of range"
      | ring :: _ =>
          .ok ((ring.take 50).map (fun c => (c.2, c.1)),
               if ring.isEmpty then none else some (meanSnd ring),
               if ring.isEmpty then none else some (meanFst ring))
  | .multiPolygon cs =>
      match cs with
      | [] => .error "IndexError: list index out of range"
      | poly :: _ =>
          match poly with
          | [] => .error "IndexError: list index out of range"
          | ring :: _ =>
              .ok ((ring.take 50).map (fun c => (c.2, c.1)),
                   if ring.isEmpty then none else some (meanSnd ring),
                   if ring.isEmpty then none else some (meanFst ring))
  | .other => .ok ([], none, none)

/-- The canonical record built by `_process_features`.  Fields without a
`setdefault` (property_address, full_market_value, swis_code) may be absent
from the dict, which the DataFrame renders as NaN: modelled as `Option`. -/
structure NRecord where
  parcel_id : PyVal
  sbl : PyVal
  owner : PyVal
  mailing_address : PyVal
  mailing_city : PyVal
  mailing_state : PyVal
  mailing_zip : PyVal
  property_address : Option PyVal
  full_market_value : Option PyVal
  swis_code : Option PyVal
  property_class : PyVal
  property_class_desc : String
  acreage : PyVal
  assessed_value : PyVal
  land_value : PyVal
  municipality : PyVal
  county : PyVal
  school_district : PyVal
  coordinates : List (ℚ × ℚ)
  latitude : Option ℚ
  longitude : Option ℚ
  improvement_value : ℤ
  annual_taxes : ℚ
  tax_year : ℤ
  deed_book : String
  deed_page : String
  last_sale_date : String
  last_sale_price : PyVal
deriving DecidableEq, Repr

/-- Per-feature body of the `_process_features` loop. -/
def processNFeature (f : GJFeature) : Except String NRecord := do
  let props := f.properties
  let rec0 := nysMapFields props
  let prop_class := pyValStr (getAttrD rec0 "property_class" (.str ""))
  let geo ← nysGeo f.geometry
  let assessed_value := getAttrD rec0 "assessed_value" (.num 0)
  let land_value := getAttrD rec0 "land_value" (.num 0)
  let improvement_value ←
    if assessed_value.truthy && land_value.truthy then do
      let x ← pyInt assessed_value
      let y ← pyInt land_value
      pure (x - y)
    else pure (0 : ℤ)
  let av ← pyFloat (pyOr assessed_value (.num 0))
  pure {
    parcel_id := getAttrD rec0 "parcel_id" (getAttrD props "OBJECTID" (.str "N/A")),
    sbl := getAttrD rec0 "sbl" (.str ""),
    owner := getAttrD rec0 "owner" (.str "Unknown"),
    mailing_address := getAttrD rec0 "mailing_address" (.str ""),
    mailing_city := getAttrD rec0 "mailing_city" (.str ""),
    mailing_state := getAttrD rec0 "mailing_state" (.str "NY"),
    mailing_zip := getAttrD rec0 "mailing_zip" (.str ""),
    property_address :=
      if hasKey rec0 "property_address" then some (getAttr rec0 "property_address") else none,
    full_market_value :=
      if hasKey rec0 "full_market_value" then some (getAttr rec0 "full_market_value") else none,
    swis_code :=
      if hasKey rec0 "swis_code" then some (getAttr rec0 "swis_code") else none,
    property_class := getAttrD rec0 "property_class" (.str ""),
    property_class_desc := resolveClassDescNYS prop_class,
    acreage := getAttrD rec0 "acreage" (.num 0),
    assessed_value := assessed_value,
    land_value := land_value,
    municipality := getAttrD rec0 "municipality" (.str ""),
    county := getAttrD rec0 "county" (.str "Greene"),
    school_district := getAttrD rec0 "school_district" (.str ""),
    coordinates := geo.1,
    latitude := geo.2.1,
    longitude := geo.2.2,
    improvement_value := improvement_value,
    annual_taxes := pyRound2 (av * (25/1000)),
    tax_year := 2024,
    deed_book := "",
    deed_page := "",
    last_sale_date := "",
    last_sale_price := .pynone }

/-- The whole of `_process_features`: convert every feature (first exception
aborts) and return `pd.DataFrame(records)` as is — note that unlike the
other two ingestion paths there is no `dropna` here: records without a
resolvable centroid are kept. -/
def nysProcessFeatures (features : List GJFeature) : Except String (List NRecord) :=
  mapEx processNFeature features

/-! ## Flat-cache ingestion: the coercion lines of `app.load_parcel_data` -/

/-- Model of `pd.to_numeric(v, errors="coerce")` on one cell: numbers pass
through, numeric strings parse, anything else becomes NaN (`none`). -/
def to_numeric_coerce : PyVal → Option ℚ
  | .num q => some q
  | .str s => parsePyFloat s
  | .pynone => none

/-- The acreage / assessed_value lines of `load_parcel_data`:
`pd.to_numeric(col, errors="coerce").fillna(0)` — coercion failures resolve
to 0 and never raise. -/
def coerce_fillna0 (v : PyVal) : ℚ := (to_numeric_coerce v).getD 0

/-! ## Spatial index: `app.get_spatial_index` and the Find-Nearest handler -/

/-- The latitude/longitude rows fed to the index: one `(lat, lon)` pair per
record. -/
abbrev Coords := List (ℚ × ℚ)

/-- One coordinate pair after `np.round(coords, 6)`. -/
def roundPoint (p : ℚ × ℚ) : ℚ × ℚ := (round6 p.1, round6 p.2)

/-- The whole coordinate array after `np.round(coords, 6)`. -/
def roundCoords (cs : Coords) : Coords := cs.map roundPoint

/-- The cache key.  The code computes
`hashlib.sha256(coords_rounded.tobytes()).hexdigest()`; the byte encoding
of the rounded array is injective, and the SHA-256 digest is modelled by
its preimage (the rounded coordinate list), i.e. the hash is idealized as
collision-free. -/
def fingerprint (cs : Coords) : Coords := roundCoords cs

/-- The fitted nearest-neighbour structure.  The code fits a haversine
ball tree on `np.radians(coords_rounded)`; radian conversion is the fixed
pointwise rescaling by π/180, so the index is identified with the rounded
degree coordinates it is fitted on. -/
structure NNIndex where
  fittedPts : Coords
deriving DecidableEq, Repr

/-- The session-scoped `spatial_index_cache` dict, keyed by fingerprint. -/
abbrev SpatialCache := List (Coords × NNIndex)

/-- `app.get_spatial_index`: an empty coordinate array returns
`(None, False)` untouched; otherwise the rounded coordinates are
fingerprinted, a cached index for that fingerprint is returned with
`was_cached = True`, and on a miss a new index is fitted on the rounded
coordinates, stored, and returned with `was_cached = False`.  Returns
`(index, was_cached, cache_after)`. -/
def get_spatial_index (cache : SpatialCache) (coords : Coords) :
    Option NNIndex × Bool × SpatialCache :=
  if coords.isEmpty then (none, false, cache)
  else
    match cache.find? (fun e => decide (e.1 = fingerprint coords)) with
    | some e => (some e.2, true, cache)
    | none =>
        (some (NNIndex.mk (roundCoords coords)), false,
          (fingerprint coords, NNIndex.mk (roundCoords coords)) :: cache)

/-- Position and distance of the nearest point in a list, starting from
index `i` (first wins on ties). -/
def argminIdx (f : (ℚ × ℚ) → ℚ) : Coords → ℕ → Option (ℕ × ℚ)
  | [], _ => none
  | x :: xs, i =>
      match argminIdx f xs (i + 1) with
      | none => some (i, f x)
      | some (j, v) => if f x ≤ v then some (i, f x) else some (j, v)

/-- `nn.kneighbors(target, n_neighbors=1)`: the ball-tree query returns the
position (and distance) of the fitted point nearest to the query under the
haversine metric on the radian-converted points; the metric is abstracted
as a parameter `dist`, and the query is the argmin over the fitted
points. -/
def kneighborsWith (dist : (ℚ × ℚ) → (ℚ × ℚ) → ℚ) (nn : NNIndex) (q : ℚ × ℚ) :
    Option (ℕ × ℚ) :=
  argminIdx (fun p => dist q p) nn.fittedPts 0

/-- The Find-Nearest handler in `app.main`: build (or fetch) the index for
the in-scope coordinates; when it is `None` report no result (a warning)
without querying, otherwise return the nearest row position. -/
def findNearestFlow (dist : (ℚ × ℚ) → (ℚ × ℚ) → ℚ) (cache : SpatialCache)
    (coords : Coords) (q : ℚ × ℚ) : Option ℕ × SpatialCache :=
  match get_spatial_index cache coords with
  | (none, _, c) => (none, c)
  | (some nn, _, c) => ((kneighborsWith dist nn q).map (fun r => r.1), c)

/-! ## Concrete inputs and projections used by individual claims -/

/-- The square ring of the spec's end-to-end scenario, `[lon, lat]` pairs. -/
def squareRing : List (ℚ × ℚ) :=
  [(-7428/100, 4218/100), (-7427/100, 4218/100),
   (-7427/100, 4219/100), (-7428/100, 4219/100)]

/-- A 51-point ring (so one point beyond the NYS fetcher's 50-point cap). -/
def ring51 : List (ℚ × ℚ) := (List.range 51).map (fun i => ((i : ℚ), 0))

/-- A 101-point ring whose last vertex is an outlier: the first 100 points
sit at the origin and the 101st has longitude 202. -/
def ring101 : List (ℚ × ℚ) :=
  List.replicate 100 ((0 : ℚ), (0 : ℚ)) ++ [((202 : ℚ), (0 : ℚ))]

/-- An ArcGIS feature whose acreage attribute is a non-numeric string. -/
def badAcresFeature : AFeature :=
  { attributes := [("ACRES", PyVal.str "not numeric")], rings := some [squareRing] }

/-- A well-formed ArcGIS feature (the spec's end-to-end scenario). -/
def goodFeature : AFeature :=
  { attributes := [("OWNER", PyVal.str "Doe, Jane"), ("TOTAL_AV", PyVal.num 100000),
                   ("PROP_CLASS", PyVal.str "210")],
    rings := some [squareRing] }

/-- A GeoJSON feature with an assessed value but no annual_taxes property. -/
def noTaxFeature : GJFeature :=
  { properties := [("TOTAL_AV", PyVal.num 100000)], geometry := .polygon [squareRing] }

/-- A NYS GIS feature with a non-polygonal geometry (no resolvable
centroid). -/
def pointishFeature : GJFeature := { properties := [], geometry := .other }

/-- One-point dataset at latitude 0, longitude 4.9e-7. -/
def coordsA : Coords := [((0 : ℚ), 49/100000000)]

/-- One-point dataset at latitude 0, longitude 5.1e-7 — within 2e-8 of
`coordsA`, but on the other side of the 5e-7 rounding boundary. -/
def coordsB : Coords := [((0 : ℚ), 51/100000000)]

/-- Batch length of a fallible conversion result. -/
def exceptLen {α : Type} (x : Except String (List α)) : Option ℕ :=
  x.toOption.map List.length

/-- Latitudes of the records produced by the NYS path. -/
def nysLatitudes (x : Except String (List NRecord)) : Option (List (Option ℚ)) :=
  x.toOption.map (List.map (fun r => r.latitude))

/-- Annual-taxes column of a successful `geojson_to_df` result. -/
def gjAnnualTaxes (x : Except String (Option (List GJRecord))) : Option (List ℚ) :=
  match x with
  | .ok (some l) => some (l.map (fun r => r.annual_taxes))
  | _ => none

/-- Assessed-value column of a successful `geojson_to_df` result. -/
def gjAssessedValues (x : Except String (Option (List GJRecord))) : Option (List ℤ) :=
  match x with
  | .ok (some l) => some (l.map (fun r => r.assessed_value))
  | _ => none

/-- Length of the stored `coordinates` produced by the NYS geometry
handler. -/
def nysCoordLen (g : GJGeom) : Option ℕ :=
  (nysGeo g).toOption.map (fun t => t.1.length)

/-- The assembled (pre-drop) records of the one-feature batch
`[goodFeature]`. -/
def goodAssembled : List GRecord :=
  (mapEx processGFeature [goodFeature]).toOption.getD []

/-- The final output of `process_features` on the batch `[goodFeature]`. -/
def goodBatchOut : List GRecord :=
  (process_features [goodFeature]).toOption.getD []

/-- The record list of a successful `geojson_to_df` run (empty on failure
or a `None` result). -/
def gjOut (d : GJData) : List GJRecord :=
  match geojson_to_df d with
  | .ok (some l) => l
  | _ => []

/-! ## Support lemmas -/

/-- Rounding ties-to-even lands within half a unit of its argument. -/
theorem abs_sub_roundHalfEven_le (q : ℚ) : |q - (roundHalfEven q : ℚ)| ≤ 1/2 := by
  have h1 : ((⌊q⌋ : ℤ) : ℚ) ≤ q := Int.floor_le q
  have h2 : q < ((⌊q⌋ : ℤ) : ℚ) + 1 := Int.lt_floor_add_one q
  unfold roundHalfEven
  split_ifs with ha hb hc <;> rw [abs_le] <;> push_cast <;> constructor <;> linarith

/-- Two rationals more than `1e-6` apart round to different six-decimal
values. -/
theorem round6_ne_of_gap (x y : ℚ) (h : 1/1000000 < |x - y|) :
    round6 x ≠ round6 y := by
  intro he
  have hm : ((roundHalfEven (x * 1000000) : ℤ) : ℚ) = ((roundHalfEven (y * 1000000) : ℤ) : ℚ) := by
    unfold round6 at he
    field_simp at he
    exact_mod_cast he
  have hx := abs_sub_roundHalfEven_le (x * 1000000)
  have hy := abs_sub_roundHalfEven_le (y * 1000000)
  rw [hm] at hx
  have hy' : |((roundHalfEven (y * 1000000) : ℤ) : ℚ) - y * 1000000| ≤ 1/2 := by
    rw [abs_sub_comm]; exact hy
  have habs : |x * 1000000 - y * 1000000| ≤ 1 := by
    have h3 := abs_sub_le (x * 1000000) ((roundHalfEven (y * 1000000) : ℤ) : ℚ) (y * 1000000)
    linarith
  have hmul : |x - y| * 1000000 ≤ 1 := by
    have : |x * 1000000 - y * 1000000| = |x - y| * 1000000 := by
      rw [show x * 1000000 - y * 1000000 = (x - y) * 1000000 by ring, abs_mul]
      norm_num
    linarith [this ▸ habs]
  nlinarith [h]

/-- A coordinate pair whose first or second component moved by more than
`1e-6` rounds to a different pair. -/
theorem roundPoint_ne_of_gap (p q : ℚ × ℚ)
    (h : 1/1000000 < |p.1 - q.1| ∨ 1/1000000 < |p.2 - q.2|) :
    roundPoint p ≠ roundPoint q := by
  intro he
  have h1 := congrArg Prod.fst he
  have h2 := congrArg Prod.snd he
  simp only [roundPoint] at h1 h2
  rcases h with h | h
  · exact round6_ne_of_gap _ _ h h1
  · exact round6_ne_of_gap _ _ h h2

/-- Rounding coordinate lists that differ at one position in one rounded
point gives different lists. -/
theorem roundCoords_ne_of_mid (a b : Coords) (p q : ℚ × ℚ)
    (h : roundPoint p ≠ roundPoint q) :
    roundCoords (a ++ p :: b) ≠ roundCoords (a ++ q :: b) := by
  intro he
  apply h
  unfold roundCoords at he
  rw [List.map_append, List.map_append, List.map_cons, List.map_cons] at he
  have h2 := List.append_cancel_left he
  simpa using h2

/-- Inverting one monadic bind of a successful `Except` computation. -/
theorem exceptBind_ok {α β : Type} {x : Except String α} {k : α → Except String β} {b : β}
    (h : (x >>= k) = Except.ok b) : ∃ a, x = Except.ok a ∧ k a = Except.ok b := by
  cases x with
  | error e =>
      simp only [bind, Except.bind] at h
      exact Except.noConfusion h
  | ok a =>
      exact ⟨a, rfl, by simpa only [bind, Except.bind] using h⟩

/-! ## Claims -/

/-- C1: calling `get_spatial_index` twice on record sets with identical
latitude/longitude values yields the same fingerprint and the second call
is a cache hit that returns the previously built index with
`was_cached = true`; altering any one coordinate by more than `1e-6`
degrees yields a different fingerprint and, starting from a fresh cache
primed with the original dataset, a cache miss on which a new index is
built and `was_cached = false`.  (The SHA-256 digest of the rounded
coordinate bytes is modelled by its preimage, i.e. idealized as
collision-free.) -/
theorem C1_fingerprint_stability (cache : SpatialCache) (a b : Coords) (p q : ℚ × ℚ)
    (hgap : 1/1000000 < |p.1 - q.1| ∨ 1/1000000 < |p.2 - q.2|) :
    (∀ coords : Coords, coords ≠ [] →
      ∃ nn : NNIndex, (get_spatial_index cache coords).1 = some nn ∧
        get_spatial_index (get_spatial_index cache coords).2.2 coords =
          (some nn, true, (get_spatial_index cache coords).2.2)) ∧
    fingerprint (a ++ p :: b) ≠ fingerprint (a ++ q :: b) ∧
    (get_spatial_index (get_spatial_index [] (a ++ p :: b)).2.2 (a ++ q :: b)).2.1 = false ∧
    (get_spatial_index (get_spatial_index [] (a ++ p :: b)).2.2 (a ++ q :: b)).1 =
      some (NNIndex.mk (roundCoords (a ++ q :: b))) := by
  have hfp : fingerprint (a ++ p :: b) ≠ fingerprint (a ++ q :: b) :=
    roundCoords_ne_of_mid a b p q (roundPoint_ne_of_gap p q hgap)
  refine ⟨?_, hfp, ?_, ?_⟩
  · intro coords hne
    have hemp : coords.isEmpty = false := by
      cases coords with
      | nil => exact absurd rfl hne
      | cons x xs => rfl
    cases hfind : List.find? (fun e => decide (e.1 = fingerprint coords)) cache with
    | none =>
        refine ⟨NNIndex.mk (roundCoords coords), ?_, ?_⟩
        · simp [get_spatial_index, hemp, hfind]
        · have hstep : get_spatial_index cache coords =
              (some (NNIndex.mk (roundCoords coords)), false,
                (fingerprint coords, NNIndex.mk (roundCoords coords)) :: cache) := by
            simp [get_spatial_index, hemp, hfind]
          have hfind2 : List.find? (fun e => decide (e.1 = fingerprint coords))
              ((fingerprint coords, NNIndex.mk (roundCoords coords)) :: cache) =
              some (fingerprint coords, NNIndex.mk (roundCoords coords)) :=
            List.find?_cons_of_pos _ (by simp)
          rw [hstep]
          simp [get_spatial_index, hemp, hfind2]
    | some e =>
        refine ⟨e.2, ?_, ?_⟩
        · simp [get_spatial_index, hemp, hfind]
        · simp [get_spatial_index, hemp, hfind]
  all_goals {
    have hemp1 : (a ++ p :: b).isEmpty = false := by
      cases a <;> rfl
    have hemp2 : (a ++ q :: b).isEmpty = false := by
      cases a <;> rfl
    have hfind1 : List.find? (fun e => decide (e.1 = fingerprint (a ++ p :: b)))
        ([] : SpatialCache) = none := rfl
    have hfind2 : List.find? (fun e => decide (e.1 = fingerprint (a ++ q :: b)))
        ((fingerprint (a ++ p :: b), NNIndex.mk (roundCoords (a ++ p :: b))) ::
          ([] : SpatialCache)) = none := by
      rw [List.find?_cons_of_neg _ (by simp [hfp])]
      rfl
    simp only [get_spatial_index, hemp1, hemp2, Bool.false_eq_true, if_false, hfind1]
    simp [hfind2] }

/-- C1 witness: the hypotheses of `C1_fingerprint_stability` hold at the
one-point datasets `[(0, 0)]` and `[(1, 0)]` (one latitude moved by a full
degree), and the conclusion evaluates there. -/
theorem C1_fingerprint_stability_witness :
    (1/1000000 < |((0 : ℚ)) - 1|) ∧
    fingerprint ([] ++ ((0 : ℚ), (0 : ℚ)) :: []) ≠ fingerprint ([] ++ ((1 : ℚ), (0 : ℚ)) :: []) ∧
    (get_spatial_index (get_spatial_index [] ([] ++ ((0 : ℚ), (0 : ℚ)) :: [])).2.2
        ([] ++ ((1 : ℚ), (0 : ℚ)) :: [])).2.1 = false ∧
    ∃ nn : NNIndex, (get_spatial_index [] [((5 : ℚ), (6 : ℚ))]).1 = some nn ∧
      get_spatial_index (get_spatial_index [] [((5 : ℚ), (6 : ℚ))]).2.2 [((5 : ℚ), (6 : ℚ))] =
        (some nn, true, (get_spatial_index [] [((5 : ℚ), (6 : ℚ))]).2.2) :=
  have h := C1_fingerprint_stability [] [] [] ((0 : ℚ), (0 : ℚ)) ((1 : ℚ), (0 : ℚ))
    (Or.inl (by norm_num))
  ⟨by norm_num, h.2.1, h.2.2.1, h.1 [((5 : ℚ), (6 : ℚ))] (by decide)⟩

/-- C2 (amended): normalizing an empty batch yields an empty canonical list
on the GeoJSON and NYS paths; building the spatial index over zero valid
coordinates yields no index (`None`, `was_cached = false`) and the
Find-Nearest flow then reports no result instead of querying; but the
ArcGIS `process_features` raises KeyError on an empty batch (the empty
DataFrame has no latitude/longitude columns for `dropna` to check). -/
theorem C2_empty_input_behavior :
    process_features [] = Except.error "KeyError: latitude, longitude not in frame" ∧
    geojson_to_df (GJData.mk true []) = Except.ok (some []) ∧
    nysProcessFeatures [] = Except.ok [] ∧
    (∀ cache : SpatialCache, get_spatial_index cache [] = (none, false, cache)) ∧
    (∀ (dist : (ℚ × ℚ) → (ℚ × ℚ) → ℚ) (cache : SpatialCache) (q : ℚ × ℚ),
      findNearestFlow dist cache [] q = (none, cache)) :=
  ⟨rfl, rfl, rfl, fun _ => rfl, fun _ _ _ => rfl⟩

/-- C2 counterexample: on the ArcGIS path an empty batch does not produce
an empty canonical record list — `process_features []` raises (KeyError)
instead. -/
theorem C2_counterexample :
    process_features [] = Except.error "KeyError: latitude, longitude not in frame" ∧
    process_features [] ≠ Except.ok [] := by
  refine ⟨rfl, fun h => ?_⟩
  rw [show process_features ([] : List AFeature) =
      Except.error "KeyError: latitude, longitude not in frame" from rfl] at h
  exact Except.noConfusion h

/-- C3 (amended): for a nonempty class code the description resolves in
exactly the order: exact lookup, else first-two-characters padded with "0",
else first-character padded with "00", else "Unknown"; "910" resolves to
"Private Forest" and "915" resolves via the 2-digit fallback to the same
description; but "999" does not resolve to "Unknown" — its 2-digit
fallback "990" is in the table, so it resolves to "Town Land". -/
theorem C3_class_resolution_order (pc : String) (hne : pc ≠ "") :
    (∀ d, classLookup pc = some d → resolveClassDesc pc = d) ∧
    (classLookup pc = none →
      ∀ d, classLookup (if 2 ≤ pc.length then pc.take 2 ++ "0" else pc) = some d →
        resolveClassDesc pc = d) ∧
    (classLookup pc = none →
      classLookup (if 2 ≤ pc.length then pc.take 2 ++ "0" else pc) = none →
      ∀ d, classLookup (if 1 ≤ pc.length then pc.take 1 ++ "00" else "") = some d →
        resolveClassDesc pc = d) ∧
    (classLookup pc = none →
      classLookup (if 2 ≤ pc.length then pc.take 2 ++ "0" else pc) = none →
      classLookup (if 1 ≤ pc.length then pc.take 1 ++ "00" else "") = none →
      resolveClassDesc pc = "Unknown") ∧
    resolveClassDesc "910" = "Private Forest" ∧
    resolveClassDesc "915" = "Private Forest" ∧
    resolveClassDesc "999" = "Town Land" := by
  have hb : (pc == "") = false := by
    simpa using hne
  refine ⟨?_, ?_, ?_, ?_, by decide, by decide, by decide⟩
  · intro d hd
    simp [resolveClassDesc, hb, hd]
  · intro h0 d hd
    simp [resolveClassDesc, hb, h0, hd]
  · intro h0 h1 d hd
    simp [resolveClassDesc, hb, h0, h1, hd]
  · intro h0 h1 h2
    simp [resolveClassDesc, hb, h0, h1, h2]

/-- C3 witness: code "912" has no exact entry, so the theorem's 2-digit
fallback branch applies and yields the "910" description. -/
theorem C3_class_resolution_order_witness : resolveClassDesc "912" = "Private Forest" :=
  (C3_class_resolution_order "912" (by decide)).2.1 (by decide) "Private Forest" (by decide)

/-- C3 counterexample: the class "999", absent from the table, resolves to
"Town Land" (via the 2-digit fallback "990"), not to "Unknown" as
claimed. -/
theorem C3_counterexample :
    resolveClassDesc "999" = "Town Land" ∧ resolveClassDesc "999" ≠ "Unknown" := by
  exact ⟨by decide, by decide⟩

/-- C4 (amended): for a nonempty first ring, every ingestion path outputs
the ring with each `[lon, lat]` pair swapped to `[lat, lon]`; the cap is
100 points in `geojson_to_df` (Polygon and MultiPolygon) and in the ArcGIS
`process_features`, but 50 points in the NYS fetcher; the retained prefix
satisfies `output[i] = [input[i][1], input[i][0]]` pointwise and the
100-capped output has length `min (ring length) 100`. -/
theorem C4_ring_swap_and_cap (ring : List (ℚ × ℚ)) (rings : List (List (ℚ × ℚ)))
    (polys : List (List (List (ℚ × ℚ)))) (hne : ring ≠ []) :
    gjCoords (GJGeom.polygon (ring :: rings)) =
      Except.ok ((ring.take 100).map (fun c => (c.2, c.1))) ∧
    gjCoords (GJGeom.multiPolygon ((ring :: rings) :: polys)) =
      Except.ok ((ring.take 100).map (fun c => (c.2, c.1))) ∧
    (greeneGeo (some (ring :: rings))).1 = (ring.take 100).map (fun c => (c.2, c.1)) ∧
    (nysGeo (GJGeom.polygon (ring :: rings))).map (fun t => t.1) =
      Except.ok ((ring.take 50).map (fun c => (c.2, c.1))) ∧
    ((ring.take 100).map (fun c => (c.2, c.1))).length = min ring.length 100 ∧
    (∀ i : ℕ, i < min ring.length 100 →
      ((ring.take 100).map (fun c => (c.2, c.1))).getD i (0, 0) =
        ((ring.getD i (0, 0)).2, (ring.getD i (0, 0)).1)) := by
  have hemp : ring.isEmpty = false := by
    cases ring with
    | nil => exact absurd rfl hne
    | cons x xs => rfl
  refine ⟨?_, ?_, ?_, rfl, ?_, ?_⟩
  · simp [gjCoords, hemp]
  · simp [gjCoords, hemp]
  · simp [greeneGeo, hemp]
  · simp [List.length_map, List.length_take, Nat.min_comm]
  · intro i hi
    have h100 : i < 100 := lt_of_lt_of_le hi (Nat.min_le_right _ _)
    have hlen : i < ring.length := lt_of_lt_of_le hi (Nat.min_le_left _ _)
    rw [List.getD_eq_getElem?_getD, List.getElem?_map, List.getElem?_take, if_pos h100,
      List.getElem?_eq_getElem hlen, List.getD_eq_getElem?_getD,
      List.getElem?_eq_getElem hlen]
    rfl

/-- C4 witness: the swap/cap conclusion evaluated on the four-point square
ring through the `geojson_to_df` Polygon path. -/
theorem C4_ring_swap_and_cap_witness :
    gjCoords (GJGeom.polygon [squareRing]) =
      Except.ok ((squareRing.take 100).map (fun c => (c.2, c.1))) :=
  (C4_ring_swap_and_cap squareRing [] [] (by decide)).1

/-- C4 counterexample: a 51-point ring through the NYS fetcher keeps only
50 points, not `min (ring length) 100 = 51` as claimed. -/
theorem C4_counterexample :
    nysCoordLen (GJGeom.polygon [ring51]) = some 50 ∧
    min ring51.length 100 = 51 ∧ (50 : ℕ) ≠ 51 :=
  ⟨rfl, rfl, by decide⟩

/-- C5 (amended): the ArcGIS and NYS paths compute the centroid as the
arithmetic mean of ALL ring vertices (exactly, hence within any tolerance);
the `geojson_to_df` path computes it as the mean of the retained (at most
first 100) vertices, which agrees with the full-vertex mean whenever the
ring has at most 100 points; the square ring of the spec yields latitude
exactly 42.185 and longitude exactly -74.275. -/
theorem C5_centroid_arithmetic_mean (ring : List (ℚ × ℚ)) (rings : List (List (ℚ × ℚ)))
    (hne : ring ≠ []) :
    (greeneGeo (some (ring :: rings))).2.1 = some (meanSnd ring) ∧
    (greeneGeo (some (ring :: rings))).2.2 = some (meanFst ring) ∧
    (nysGeo (GJGeom.polygon (ring :: rings))).map (fun t => t.2) =
      Except.ok (some (meanSnd ring), some (meanFst ring)) ∧
    (ring.length ≤ 100 →
      gjCentroid ((ring.take 100).map (fun c => (c.2, c.1))) =
        (some (meanSnd ring), some (meanFst ring))) ∧
    (greeneGeo (some [squareRing])).2.1 = some (8437/200) ∧
    (greeneGeo (some [squareRing])).2.2 = some (-2971/40) := by
  have hemp : ring.isEmpty = false := by
    cases ring with
    | nil => exact absurd rfl hne
    | cons x xs => rfl
  have hsq1 : meanSnd squareRing = 8437/200 := by norm_num [meanSnd, squareRing]
  have hsq2 : meanFst squareRing = -2971/40 := by norm_num [meanFst, squareRing]
  refine ⟨?_, ?_, ?_, ?_, ?_, ?_⟩
  · simp [greeneGeo, hemp]
  · simp [greeneGeo, hemp]
  · simp [nysGeo, hemp, Except.map]
  · intro h100
    rw [List.take_of_length_le h100]
    have hmemp : (ring.map (fun c => ((c.2 : ℚ), (c.1 : ℚ)))).isEmpty = false := by
      cases ring with
      | nil => exact absurd rfl hne
      | cons x xs => rfl
    have h1 : meanFst (ring.map (fun c => (c.2, c.1))) = meanSnd ring := by
      simp [meanFst, meanSnd, List.map_map, Function.comp_def]
    have h2 : meanSnd (ring.map (fun c => (c.2, c.1))) = meanFst ring := by
      simp [meanFst, meanSnd, List.map_map, Function.comp_def]
    simp only [gjCentroid, hmemp, Bool.false_eq_true, if_false, h1, h2]
  · have : (greeneGeo (some [squareRing])).2.1 = some (meanSnd squareRing) := by
      simp [greeneGeo, show squareRing.isEmpty = false from rfl]
    rw [this, hsq1]
  · have : (greeneGeo (some [squareRing])).2.2 = some (meanFst squareRing) := by
      simp [greeneGeo, show squareRing.isEmpty = false from rfl]
    rw [this, hsq2]

/-- C5 witness: the full-ring centroid conclusion evaluated on the square
ring (mean latitude 42.185). -/
theorem C5_centroid_arithmetic_mean_witness :
    (greeneGeo (some [squareRing])).2.1 = some (meanSnd squareRing) ∧
    meanSnd squareRing = 8437/200 :=
  ⟨(C5_centroid_arithmetic_mean squareRing [] (by decide)).1,
   by norm_num [meanSnd, squareRing]⟩

/-- C5 counterexample: for a 101-point ring whose 101st vertex is a
longitude outlier, `geojson_to_df` computes the centroid from only the
first 100 points: computed longitude 0, while the arithmetic mean of all
ring vertices' longitudes is 2 — far outside the claimed 1e-9
tolerance. -/
theorem C5_counterexample :
    (gjCoords (GJGeom.polygon [ring101])).map gjCentroid = Except.ok (some 0, some 0) ∧
    meanFst ring101 = 2 ∧
    ¬ |(0 : ℚ) - 2| ≤ 1/1000000000 := by
  have hc : gjCoords (GJGeom.polygon [ring101]) =
      Except.ok (List.replicate 100 ((0 : ℚ), (0 : ℚ))) := by rfl
  refine ⟨?_, ?_, by norm_num⟩
  · rw [hc]
    have h1 : meanFst (List.replicate 100 ((0 : ℚ), (0 : ℚ))) = 0 := by
      norm_num [meanFst, List.map_replicate, List.sum_replicate]
    have h2 : meanSnd (List.replicate 100 ((0 : ℚ), (0 : ℚ))) = 0 := by
      norm_num [meanSnd, List.map_replicate, List.sum_replicate]
    have hie : (List.replicate 100 ((0 : ℚ), (0 : ℚ))).isEmpty = false := rfl
    have hgc : gjCentroid (List.replicate 100 ((0 : ℚ), (0 : ℚ))) = (some 0, some 0) := by
      simp only [gjCentroid, hie, Bool.false_eq_true, if_false, h1, h2]
    simp only [Except.map, hgc]
  · norm_num [meanFst, ring101, List.map_replicate, List.sum_replicate]

/-- C6: the ArcGIS owner fallback chain is deterministic and ordered: the
owner field of every successfully processed feature is the chain value; a
truthy `OWNER` always wins (in particular over a present truthy
`OWNER_NAME`); with `OWNER`, `Owner` and `OWNER1` absent or falsy and a
truthy `OWNER_NAME` present, `OWNER_NAME` is selected; with all six
candidates absent or falsy the owner is "Unknown". -/
theorem C6_owner_fallback (a : Attrs) :
    (∀ (f : AFeature) (r : GRecord), processGFeature f = Except.ok r →
      r.owner = greeneOwner f.attributes) ∧
    ((getAttr a "OWNER").truthy = true → greeneOwner a = getAttr a "OWNER") ∧
    ((getAttr a "OWNER").truthy = false → (getAttr a "Owner").truthy = false →
      (getAttr a "OWNER1").truthy = false → (getAttr a "OWNER_NAME").truthy = true →
      greeneOwner a = getAttr a "OWNER_NAME") ∧
    ((getAttr a "OWNER").truthy = false → (getAttr a "Owner").truthy = false →
      (getAttr a "OWNER1").truthy = false → (getAttr a "OWNER_NAME").truthy = false →
      (getAttr a "NAME").truthy = false → (getAttr a "OwnerName").truthy = false →
      greeneOwner a = PyVal.str "Unknown") := by
  refine ⟨?_, ?_, ?_, ?_⟩
  · intro f r h
    unfold processGFeature at h
    obtain ⟨v1, h1, h⟩ := exceptBind_ok h
    obtain ⟨v2, h2, h⟩ := exceptBind_ok h
    obtain ⟨v3, h3, h⟩ := exceptBind_ok h
    simp only [pure, Except.pure, Except.ok.injEq] at h
    rw [← h]
  · intro h1
    simp [greeneOwner, pyOr, h1]
  · intro h1 h2 h3 h4
    simp [greeneOwner, pyOr, h1, h2, h3, h4]
  · intro h1 h2 h3 h4 h5 h6
    simp [greeneOwner, pyOr, h1, h2, h3, h4, h5, h6]

/-- C6 witness: the three branches of the fallback chain evaluated on
concrete bags — both keys present picks OWNER, only OWNER_NAME falls back
to it, and an unrelated bag yields "Unknown". -/
theorem C6_owner_fallback_witness :
    greeneOwner [("OWNER", PyVal.str "A"), ("OWNER_NAME", PyVal.str "B")] = PyVal.str "A" ∧
    greeneOwner [("OWNER_NAME", PyVal.str "B")] = PyVal.str "B" ∧
    greeneOwner [("FOO", PyVal.str "X")] = PyVal.str "Unknown" :=
  ⟨((C6_owner_fallback [("OWNER", PyVal.str "A"), ("OWNER_NAME", PyVal.str "B")]).2.1
      (by decide)).trans (by decide),
   ((C6_owner_fallback [("OWNER_NAME", PyVal.str "B")]).2.2.1
      (by decide) (by decide) (by decide) (by decide)).trans (by decide),
   (C6_owner_fallback [("FOO", PyVal.str "X")]).2.2.2
      (by decide) (by decide) (by decide) (by decide) (by decide) (by decide)⟩

/-- C7 (amended): on the ArcGIS path every record surviving
`process_features` has non-null latitude and longitude, and the output is
exactly the fully assembled record list filtered by that condition (the
drop happens after all other fields are computed); `geojson_to_df` has the
same invariant; but the NYS `_process_features` performs no such drop and
can keep null-centroid records. -/
theorem C7_drop_after_assembly (features : List AFeature) (out assembled : List GRecord)
    (h1 : process_features features = Except.ok out)
    (h2 : mapEx processGFeature features = Except.ok assembled) :
    out = assembled.filter (fun r => r.latitude.isSome && r.longitude.isSome) ∧
    out.all (fun r => r.latitude.isSome && r.longitude.isSome) = true ∧
    (∀ (d : GJData) (gout : List GJRecord), geojson_to_df d = Except.ok (some gout) →
      gout.all (fun r => r.latitude.isSome && r.longitude.isSome) = true) := by
  have hfilter : out = assembled.filter (fun r => r.latitude.isSome && r.longitude.isSome) := by
    unfold process_features at h1
    obtain ⟨recs, hr, h1'⟩ := exceptBind_ok h1
    rw [h2, Except.ok.injEq] at hr
    subst hr
    cases hemp : assembled.isEmpty with
    | true => rw [if_pos hemp] at h1'; exact absurd h1' (by simp)
    | false =>
        rw [if_neg (by simp [hemp])] at h1'
        simpa only [pure, Except.pure, Except.ok.injEq] using h1'.symm
  refine ⟨hfilter, ?_, ?_⟩
  · rw [hfilter]
    exact List.all_eq_true.mpr (fun r hr => by
      simpa using (List.mem_filter.mp hr).2)
  · intro d gout h
    unfold geojson_to_df at h
    cases hfc : d.isFeatureCollection with
    | false => rw [if_pos (by simp [hfc])] at h; exact absurd h (by simp [pure, Except.pure])
    | true =>
        rw [if_neg (by simp [hfc])] at h
        obtain ⟨recs, hr, h'⟩ := exceptBind_ok h
        cases hemp : recs.isEmpty with
        | true =>
            rw [if_pos hemp] at h'
            have : recs = gout := by
              simpa only [pure, Except.pure, Except.ok.injEq, Option.some.injEq] using h'
            subst this
            rw [List.isEmpty_iff] at hemp
            subst hemp
            rfl
        | false =>
            rw [if_neg (by simp [hemp])] at h'
            have : recs.filter (fun r => r.latitude.isSome && r.longitude.isSome) = gout := by
              simpa only [pure, Except.pure, Except.ok.injEq, Option.some.injEq] using h'
            rw [← this]
            exact List.all_eq_true.mpr (fun r hr => by
              simpa using (List.mem_filter.mp hr).2)

/-- C7 witness: the drop-after-assembly conclusion evaluated on the
one-feature batch `[goodFeature]`. -/
theorem C7_drop_after_assembly_witness :
    goodBatchOut = goodAssembled.filter (fun r => r.latitude.isSome && r.longitude.isSome) ∧
    goodBatchOut.all (fun r => r.latitude.isSome && r.longitude.isSome) = true :=
  have h := C7_drop_after_assembly [goodFeature] goodBatchOut goodAssembled rfl rfl
  ⟨h.1, h.2.1⟩

/-- C7 counterexample: the NYS path keeps a record with null latitude — a
single non-polygonal feature yields one output record whose latitude is
null, so that path does not drop unresolvable-centroid records. -/
theorem C7_counterexample :
    nysLatitudes (nysProcessFeatures [pointishFeature]) = some [none] ∧
    exceptLen (nysProcessFeatures [pointishFeature]) = some 1 :=
  ⟨rfl, rfl⟩

/-- C8 (amended): on the flat-cache path, numeric coercion of a
non-numeric string resolves to 0 without raising
(`pd.to_numeric(errors="coerce").fillna(0)`); but on the ArcGIS path the
bare `float()` call raises ValueError on a truthy non-numeric acreage
string, and that single malformed feature aborts normalization of the
entire batch (the remaining features are lost). -/
theorem C8_coercion_and_batch_abort (s : String) (hs : parsePyFloat s = none)
    (hne : (s == "") = false) (a : Attrs) (rings : Option (List (List (ℚ × ℚ))))
    (rest : List AFeature) (hacres : getAttr a "ACRES" = PyVal.str s) :
    coerce_fillna0 (PyVal.str s) = 0 ∧
    processGFeature (AFeature.mk a rings) =
      Except.error "ValueError: could not convert string to float" ∧
    process_features (AFeature.mk a rings :: rest) =
      Except.error "ValueError: could not convert string to float" := by
  have htr : (PyVal.str s).truthy = true := by simp [PyVal.truthy, hne]
  have hpf : pyFloat (PyVal.str s) =
      Except.error "ValueError: could not convert string to float" := by
    simp [pyFloat, hs]
  have hper : processGFeature (AFeature.mk a rings) =
      Except.error "ValueError: could not convert string to float" := by
    unfold processGFeature
    dsimp only
    rw [hacres]
    simp only [pyOr, htr, if_true, hpf, bind, Except.bind]
  refine ⟨by simp [coerce_fillna0, to_numeric_coerce, hs], hper, ?_⟩
  unfold process_features mapEx
  rw [hper]
  simp only [bind, Except.bind]

/-- C8 witness: the conclusion evaluated at the non-numeric acreage string
"not numeric" in a two-feature batch: the flat-path coercion yields 0, and
the ArcGIS batch aborts with ValueError, losing the well-formed second
feature. -/
theorem C8_coercion_and_batch_abort_witness :
    coerce_fillna0 (PyVal.str "not numeric") = 0 ∧
    process_features [badAcresFeature, goodFeature] =
      Except.error "ValueError: could not convert string to float" :=
  have h := C8_coercion_and_batch_abort "not numeric" (by decide) (by decide)
    badAcresFeature.attributes badAcresFeature.rings [goodFeature] (by decide)
  ⟨h.1, h.2.2⟩

/-- C8 counterexample: a batch with one malformed feature (non-numeric
acreage string) followed by a well-formed feature raises instead of
skipping the bad record and keeping the good one. -/
theorem C8_counterexample :
    process_features [badAcresFeature, goodFeature] =
      Except.error "ValueError: could not convert string to float" ∧
    (process_features [badAcresFeature, goodFeature]).toOption = none :=
  ⟨rfl, rfl⟩

/-- C9: in the GeoJSON path a feature with assessed value 100000 and no
annual_taxes property produces `annual_taxes = 0.0`, not
`assessed_value * 0.025 = 2500` — `float(props.get("annual_taxes") or 0)`
already yields the number 0.0, so the later
`fillna(assessed_value * 0.025)` never fires. -/
theorem C9_annual_taxes_not_defaulted :
    gjAnnualTaxes (geojson_to_df (GJData.mk true [noTaxFeature])) = some [0] ∧
    gjAssessedValues (geojson_to_df (GJData.mk true [noTaxFeature])) = some [100000] ∧
    (100000 : ℚ) * (25/1000) = 2500 ∧ ((0 : ℚ) ≠ 2500) := by
  refine ⟨rfl, rfl, by norm_num, by norm_num⟩

/-- C10 (amended): the nearest-neighbour index is fitted over the
coordinates rounded to six decimals, not the raw ones; its queries are
computed against those fitted rounded points; and two datasets with EQUAL
rounded coordinates are served by one identical cached index (second call
a hit).  (Datasets differing by less than 1e-6 degrees need not round
equally — see the counterexample.) -/
theorem C10_fitted_on_rounded (cache : SpatialCache) (c1 c2 : Coords)
    (h : roundCoords c1 = roundCoords c2) (hne : c1 ≠ []) :
    (get_spatial_index [] c1).1 = some (NNIndex.mk (roundCoords c1)) ∧
    (∀ (dist : (ℚ × ℚ) → (ℚ × ℚ) → ℚ) (q : ℚ × ℚ) (nn : NNIndex),
      (get_spatial_index [] c1).1 = some nn →
      kneighborsWith dist nn q = argminIdx (fun p => dist q p) (roundCoords c1) 0) ∧
    ((get_spatial_index (get_spatial_index cache c1).2.2 c2).1 =
        (get_spatial_index cache c1).1 ∧
      (get_spatial_index (get_spatial_index cache c1).2.2 c2).2.1 = true) := by
  have hemp1 : c1.isEmpty = false := by
    cases c1 with
    | nil => exact absurd rfl hne
    | cons x xs => rfl
  have hne2 : c2 ≠ [] := by
    intro hc
    subst hc
    rw [roundCoords, roundCoords, List.map_nil, List.map_eq_nil_iff] at h
    exact hne h
  have hemp2 : c2.isEmpty = false := by
    cases c2 with
    | nil => exact absurd rfl hne2
    | cons x xs => rfl
  have hfp : fingerprint c2 = fingerprint c1 := h.symm
  have hpred : (fun (e : Coords × NNIndex) => decide (e.1 = fingerprint c2)) =
      (fun (e : Coords × NNIndex) => decide (e.1 = fingerprint c1)) := by
    funext e
    rw [hfp]
  have hpart1 : (get_spatial_index [] c1).1 = some (NNIndex.mk (roundCoords c1)) := by
    simp [get_spatial_index, hemp1]
  refine ⟨hpart1, ?_, ?_⟩
  · intro dist q nn hnn
    rw [hpart1, Option.some.injEq] at hnn
    subst hnn
    rfl
  · cases hfind : List.find? (fun e => decide (e.1 = fingerprint c1)) cache with
    | some e =>
        constructor <;>
          simp [get_spatial_index, hemp1, hemp2, hpred, hfind]
    | none =>
        have hfind2 : List.find? (fun e => decide (e.1 = fingerprint c2))
            ((fingerprint c1, NNIndex.mk (roundCoords c1)) :: cache) =
            some (fingerprint c1, NNIndex.mk (roundCoords c1)) :=
          List.find?_cons_of_pos _ (by simp [hfp])
        constructor <;>
          simp [get_spatial_index, hemp1, hemp2, hfind, hfind2]

/-- C10 witness: the fitted-on-rounded and identical-index conclusions
evaluated at the one-point dataset `[(0, 0)]` (queried twice). -/
theorem C10_fitted_on_rounded_witness :
    (get_spatial_index [] [((0 : ℚ), (0 : ℚ))]).1 =
      some (NNIndex.mk (roundCoords [((0 : ℚ), (0 : ℚ))])) ∧
    (get_spatial_index (get_spatial_index [] [((0 : ℚ), (0 : ℚ))]).2.2
        [((0 : ℚ), (0 : ℚ))]).2.1 = true :=
  have h := C10_fitted_on_rounded [] [((0 : ℚ), (0 : ℚ))] [((0 : ℚ), (0 : ℚ))] rfl
    (by decide)
  ⟨h.1, h.2.2.2⟩

/-- C10 counterexample: the one-point datasets at longitudes 4.9e-7 and
5.1e-7 differ by only 2e-8 < 1e-6 degrees, yet they round to different
six-decimal values, get different fingerprints, and the second dataset is
a cache miss that builds a second, different index — they are not served
by one identical index. -/
theorem C10_counterexample :
    |(49/100000000 : ℚ) - 51/100000000| < 1/1000000 ∧
    fingerprint coordsA ≠ fingerprint coordsB ∧
    (get_spatial_index (get_spatial_index [] coordsA).2.2 coordsB).2.1 = false ∧
    (get_spatial_index (get_spatial_index [] coordsA).2.2 coordsB).1 ≠
      (get_spatial_index [] coordsA).1 := by
  have h0 : round6 (0 : ℚ) = 0 := by
    show ((roundHalfEven ((0 : ℚ) * 1000000) : ℤ) : ℚ) / 1000000 = 0
    have hf : roundHalfEven ((0 : ℚ) * 1000000) = 0 := by
      unfold roundHalfEven
      norm_num
    rw [hf]
    norm_num
  have hA : round6 (49/100000000 : ℚ) = 0 := by
    show ((roundHalfEven ((49/100000000 : ℚ) * 1000000) : ℤ) : ℚ) / 1000000 = 0
    have he : (49/100000000 : ℚ) * 1000000 = 49/100 := by norm_num
    rw [he]
    have hf : roundHalfEven ((49 : ℚ)/100) = 0 := by
      unfold roundHalfEven
      norm_num
    rw [hf]
    norm_num
  have hB : round6 (51/100000000 : ℚ) = 1/1000000 := by
    show ((roundHalfEven ((51/100000000 : ℚ) * 1000000) : ℤ) : ℚ) / 1000000 = 1/1000000
    have he : (51/100000000 : ℚ) * 1000000 = 51/100 := by norm_num
    rw [he]
    have hf : roundHalfEven ((51 : ℚ)/100) = 1 := by
      unfold roundHalfEven
      norm_num
    rw [hf]
    norm_num
  have hfpA : fingerprint coordsA = [((0 : ℚ), (0 : ℚ))] := by
    simp [fingerprint, roundCoords, coordsA, roundPoint, h0, hA]
  have hfpB : fingerprint coordsB = [((0 : ℚ), 1/1000000)] := by
    simp [fingerprint, roundCoords, coordsB, roundPoint, h0, hB]
  have hfpne : fingerprint coordsA ≠ fingerprint coordsB := by
    rw [hfpA, hfpB]
    intro hcontra
    simp [Prod.ext_iff] at hcontra
  have hrcne : roundCoords coordsB ≠ roundCoords coordsA := fun hc => hfpne hc.symm
  have hstep1 : get_spatial_index [] coordsA =
      (some (NNIndex.mk (roundCoords coordsA)), false,
        [(fingerprint coordsA, NNIndex.mk (roundCoords coordsA))]) := by
    simp [get_spatial_index, show coordsA.isEmpty = false from rfl]
  have hfind2 : List.find? (fun e => decide (e.1 = fingerprint coordsB))
      [(fingerprint coordsA, NNIndex.mk (roundCoords coordsA))] = none := by
    rw [List.find?_cons_of_neg _ (by simp [hfpne])]
    rfl
  have hstep2 : get_spatial_index
      [(fingerprint coordsA, NNIndex.mk (roundCoords coordsA))] coordsB =
      (some (NNIndex.mk (roundCoords coordsB)), false,
        (fingerprint coordsB, NNIndex.mk (roundCoords coordsB)) ::
          [(fingerprint coordsA, NNIndex.mk (roundCoords coordsA))]) := by
    simp [get_spatial_index, show coordsB.isEmpty = false from rfl, hfind2]
  refine ⟨by rw [abs_of_nonpos (by norm_num)]; norm_num, hfpne, ?_, ?_⟩
  · rw [hstep1]
    rw [hstep2]
  · rw [hstep1, hstep2]
    simp only [Option.some.injEq, NNIndex.mk.injEq, ne_eq]
    exact hrcne

end GreeneParcels
